import Mathlib

/-!
Shallow embedding of the capability dispatcher of `task-manager-mcp-server.js`
(and, for the discovery-manifest shape, of the discovery message handler of
`mcp-server-standalone.js`), together with proofs of the behavioural claims
about it.

Conventions of the embedding:
* JavaScript values appearing on the wire are modelled by the inductive `Json`.
* JavaScript `Map` objects are modelled as association lists in insertion
  order; `Map.set` replaces an existing key in place and otherwise appends,
  which is exactly the JS iteration-order contract.
* Asynchronous handlers are modelled as pure functions returning
  `Except String α`: `.error msg` models a thrown exception carrying `msg`.
* Fields that may be `undefined` in JS are modelled with `Option`.
* `Date.now()` is modelled by an explicit `now : Nat` argument.
* `JSON.parse` and `new URL(...)` are modelled as explicit function arguments
  (`decode`, `parseUrl`), since their behaviour is external to the dispatcher;
  both may fail, modelled with `Except String`.
* The object spread `{ id, type: ..., ...result }` in the response envelopes
  is modelled by keeping the handler result in a separate `body` field; the
  registered handlers only ever return `contents`/`content`/`messages`
  objects, which cannot collide with `id`/`type`.
-/

/-- Json values as produced by `JSON.parse`; numbers are restricted to the
integers, which covers everything this repository puts on the wire. -/
inductive Json where
  | null : Json
  | bool (b : Bool) : Json
  | num (n : Int) : Json
  | str (s : String) : Json
  | arr (elems : List Json) : Json
  | obj (fields : List (String × Json)) : Json
deriving Repr, Inhabited

/-- Keys of a Json object, in insertion order; `[]` for non-objects. -/
def jsonKeys : Json → List String
  | .obj fields => fields.map Prod.fst
  | _ => []

/-- Field lookup in a Json object (first binding wins), `none` otherwise. -/
def jsonGet (j : Json) (key : String) : Option Json :=
  match j with
  | .obj fields => (fields.find? (fun p => p.1 == key)).map Prod.snd
  | _ => none

/-- Names carried by the elements of a Json array of objects: the string
value of each element's `name` field.  Used to state discovery claims. -/
def jsonNames (j : Json) : List String :=
  match j with
  | .arr elems =>
      elems.filterMap (fun e =>
        match jsonGet e "name" with
        | some (.str s) => some s
        | _ => none)
  | _ => []

/-- JavaScript `a || b` for a possibly-undefined string `a`: the fallback is
used when `a` is `undefined` or the empty string (both falsy). -/
def jsOrStr (a : Option String) (b : String) : String :=
  match a with
  | none => b
  | some s => if s = "" then b else s

/-- JavaScript `a || b` for a possibly-undefined Json value `a`; `undefined`,
`null`, `false`, `0` and `""` are falsy. -/
def jsOrJson (a : Option Json) (b : Json) : Json :=
  match a with
  | none => b
  | some .null => b
  | some (.bool false) => b
  | some (.num 0) => b
  | some (.str "") => b
  | some j => j

/-- Truthiness of a possibly-undefined string (JS: `undefined` and `""` are
falsy, every other string is truthy). -/
def jsTruthyStr (a : Option String) : Bool :=
  match a with
  | none => false
  | some s => !(s == "")

/-- String interpolation of a possibly-undefined value (JS template literals
render `undefined` as the text `undefined`). -/
def jsShow (a : Option String) : String :=
  match a with
  | none => "undefined"
  | some s => s

/-- JavaScript `s.indexOf(c)` for a single character: first index or `-1`. -/
def jsIndexOf (s : String) (c : Char) : Int :=
  match s.toList.findIdx? (fun x => x == c) with
  | some i => (i : Int)
  | none => -1

/-- JavaScript `s.substring(a)` (drop the first `a` characters).  Defined
over the character list so that it reduces structurally. -/
def jsSubstringFrom (s : String) (a : Nat) : String :=
  String.mk (s.toList.drop a)

/-- JavaScript `s.substring(a, b)` for `a ≤ b` (the only way the source uses
it): the characters at indices `[a, b)`. -/
def jsSubstring (s : String) (a b : Nat) : String :=
  String.mk ((s.toList.drop a).take (b - a))

/-- JavaScript `s.startsWith(pre)`, structurally over character lists. -/
def jsStartsWith (s pre : String) : Bool :=
  pre.toList.isPrefixOf s.toList

/-- JavaScript `s.endsWith(suf)`, structurally over character lists. -/
def jsEndsWith (s suf : String) : Bool :=
  suf.toList.reverse.isPrefixOf s.toList.reverse

/-- JavaScript `s.includes(c)` for a single-character needle. -/
def jsIncludes (s : String) (c : Char) : Bool :=
  s.toList.contains c

/-- Worker for `jsSplit`: scans the character list left to right looking for
non-overlapping occurrences of the (non-empty) separator, with enough fuel
to consume the whole input. -/
def jsSplitAux (sep : List Char) : Nat → List Char → List Char →
    List (List Char)
  | _, [], acc => [acc.reverse]
  | 0, l, acc => [acc.reverse ++ l]
  | fuel + 1, c :: rest, acc =>
      if sep.isPrefixOf (c :: rest) then
        acc.reverse :: jsSplitAux sep fuel ((c :: rest).drop sep.length) []
      else
        jsSplitAux sep fuel rest (c :: acc)

/-- JavaScript `s.split(sep)` for a non-empty string separator (the source
only splits on `"/"`, `"tasks://"` and `"task/"`). -/
def jsSplit (s sep : String) : List String :=
  (jsSplitAux sep.toList (s.toList.length + 1) s.toList []).map String.mk

/-- JavaScript `s.trim()`: strip leading and trailing whitespace. -/
def jsTrim (s : String) : String :=
  String.mk
    (((s.toList.dropWhile Char.isWhitespace).reverse.dropWhile
        Char.isWhitespace).reverse)

/-- Assignment `o[k] = v` on a JS object modelled as an association list:
replace the first binding of `k` in place, else append. -/
def jsAssign {α : Type} : List (String × α) → String → α → List (String × α)
  | [], k, v => [(k, v)]
  | (k', v') :: rest, k, v =>
      if k' = k then (k', v) :: rest else (k', v') :: jsAssign rest k v

/-- Lookup `m.get(k)` on a JS `Map` modelled as an association list. -/
def jsMapGet {α : Type} (m : List (String × α)) (k : String) : Option α :=
  (m.find? (fun p => p.1 == k)).map Prod.snd

/-- Membership `m.has(k)` on a JS `Map`. -/
def jsMapHas {α : Type} (m : List (String × α)) (k : String) : Bool :=
  (jsMapGet m k).isSome

/-- Update `m.set(k, v)` on a JS `Map`: replaces an existing key in place
(keeping its position in iteration order), otherwise appends. -/
def jsMapSet {α : Type} (m : List (String × α)) (k : String) (v : α) :
    List (String × α) :=
  jsAssign m k v

/-- Parameter maps passed to resource handlers.  The generic matcher can bind
a placeholder to `undefined` (when the URI has fewer segments than the
template), hence the `Option String` values. -/
abbrev Params : Type := List (String × Option String)

/-- The `new URL(...)` object as far as the dispatcher consumes it:
`href`, `pathname` and `protocol`. -/
structure UriObj where
  href : String
  pathname : String
  protocol : String
deriving Repr, DecidableEq

/-- Checks whether a template segment is a placeholder:
`template.startsWith('\x7b') && template.endsWith('\x7d')`. -/
def isPlaceholder (t : String) : Bool :=
  jsStartsWith t "\x7b" && jsEndsWith t "\x7d"

/-- Placeholder name: `template.substring(1, template.length - 1)`. -/
def placeholderName (t : String) : String :=
  jsSubstring t 1 (t.length - 1)

/-- Segment-walking loop of `matchUri` (`for (let i = 1; ...)` in the
source): walks the remaining template parts `rest` starting at index `i`,
accumulating bindings in `params`.  `uriParts.get? i` models `uriParts[i]`,
which is `undefined` past the end of the array; a literal template part never
equals `undefined`, while a placeholder binds whatever is there. -/
def matchLoop (uriParts : List String) : Nat → List String → Params →
    Option Params
  | _, [], params => some params
  | i, t :: rest, params =>
      if isPlaceholder t then
        matchLoop uriParts (i + 1) rest
          (jsAssign params (placeholderName t) (uriParts.get? i))
      else if uriParts.get? i = some t then
        matchLoop uriParts (i + 1) rest params
      else
        none

/-- Generic part of `matchUri` (the code after the `tasks://` special case):
protocol prefix check on `href`, then the segment walk from index 1. -/
def matchUriGeneric (uri : UriObj) (pattern : String) : Option Params :=
  let patternParts := jsSplit pattern "/"
  let uriParts := jsSplit uri.pathname "/"
  if jsStartsWith uri.href (patternParts.headD "") then
    matchLoop uriParts 1 patternParts.tail []
  else
    none

/-- Embedding of `matchUri(uri, pattern)` from
`task-manager-mcp-server.js` (lines 307–375), including the `tasks://`
special case; when the special case does not return, control falls through to
the generic segment matcher. -/
def matchUri (uri : UriObj) (pattern : String) : Option Params :=
  if jsStartsWith pattern "tasks://" && uri.protocol == "tasks:" then
    let taskPattern := jsSubstringFrom pattern "tasks://".length
    let taskUri := jsSubstringFrom uri.pathname 2
    if taskPattern == taskUri || (taskPattern == "list" && taskUri == "list")
    then
      some []
    else
      let tryParam : Option Params :=
        if jsIncludes taskPattern '{' && jsStartsWith taskUri "task/" then
          let paramStart := jsIndexOf taskPattern '{'
          let paramEnd := jsIndexOf taskPattern '}'
          if paramStart > 0 && paramEnd > paramStart then
            let paramName :=
              jsSubstring taskPattern (paramStart.toNat + 1) paramEnd.toNat
            let paramValue :=
              jsSubstringFrom taskUri
                (jsSubstring taskPattern 0 paramStart.toNat).length
            some (jsAssign [] paramName (some paramValue))
          else
            none
        else
          none
      match tryParam with
      | some params => some params
      | none => matchUriGeneric uri pattern
  else
    matchUriGeneric uri pattern

/-- Declared kind of a zod schema (the class of the underlying zod object). -/
inductive ZKind where
  | zstring : ZKind
  | znumber : ZKind
  | zboolean : ZKind
  | zarray : ZKind
  | zobject : ZKind
  | zenum (values : List String) : ZKind
deriving Repr, DecidableEq

/-- Declared parameter schema, as built by the zod chains in the source
(`z.enum([...]).optional().describe(...)` and the like).  `optional` records
an `.optional()` wrapper (a `ZodOptional` instance); `description` records
the `.describe(...)` text. -/
structure ZSchema where
  kind : ZKind
  optional : Bool := false
  description : String := ""
deriving Repr, DecidableEq

/-- The `schema.enum` property is only present (and truthy) on a bare
`ZodEnum`; an `.optional()` wrapper is a `ZodOptional` and has no such
property. -/
def hasEnumProp (s : ZSchema) : Bool :=
  !s.optional &&
    (match s.kind with
     | .zenum _ => true
     | _ => false)

/-- JavaScript `schema instanceof z.ZodString` and friends: an `.optional()`
wrapper is a `ZodOptional` instance, never one of the listed classes. -/
def instOfKind (s : ZSchema) (k : ZKind) : Bool :=
  !s.optional && s.kind == k

/-- Embedding of `getSchemaType(schema)` (identical in
`task-manager-mcp-server.js` lines 968–976 and `mcp-server-standalone.js`
lines 683–691): the type label is computed from the declared schema object,
falling through to `"unknown"` (which is what every `.optional()`-wrapped
schema hits, since `ZodOptional` matches none of the checks). -/
def getSchemaType (schema : ZSchema) : String :=
  if hasEnumProp schema then "enum"
  else if instOfKind schema .zstring then "string"
  else if instOfKind schema .znumber then "number"
  else if instOfKind schema .zboolean then "boolean"
  else if instOfKind schema .zarray then "array"
  else if instOfKind schema .zobject then "object"
  else "unknown"

/-- The first argument the dispatcher passes to a resource handler: the
`tasks://` fast path passes `{href: uri, pathname: ''}`, the generic path
passes the parsed URL object. -/
structure HandlerUri where
  href : String
  pathname : String
deriving Repr, DecidableEq

/-- Registered resource template (`ResourceTemplate(pattern, options)`). -/
structure RTemplate where
  pattern : String
  description : String := ""
deriving Repr, DecidableEq

/-- Embedding of the `ResourceTemplate` helper (lines 298–304). -/
def ResourceTemplate (pattern : String) (description : String) : RTemplate :=
  { pattern := pattern, description := description }

/-- Registry entry for a resource: `{ template, handler }`. -/
structure ResEntry where
  template : RTemplate
  handler : HandlerUri → Params → Except String Json

/-- Registry entry for a tool or prompt: `{ parameters, handler }`. -/
structure ToolEntry where
  parameters : List (String × ZSchema)
  handler : Json → Except String Json

/-- Metadata registered alongside a tool or prompt (`info`). -/
structure Info where
  description : Option String := none
  usage : Option Json := none

/-- The server object (lines 39–106): three capability maps plus the two
metadata maps, all in registration order. -/
structure Server where
  name : String
  version : String
  description : String
  publisher : String
  resources : List (String × ResEntry) := []
  tools : List (String × ToolEntry) := []
  prompts : List (String × ToolEntry) := []
  toolInfo : List (String × Info) := []
  promptInfo : List (String × Info) := []

/-- Embedding of `server.resource(name, template, handler)`. -/
def Server.resource (s : Server) (name : String) (template : RTemplate)
    (handler : HandlerUri → Params → Except String Json) : Server :=
  let entry : ResEntry := { template := template, handler := handler }
  { s with resources := jsMapSet s.resources name entry }

/-- Embedding of `server.tool(name, parameters, handler, info)`. -/
def Server.tool (s : Server) (name : String)
    (parameters : List (String × ZSchema)) (handler : Json → Except String Json)
    (info : Info) : Server :=
  let entry : ToolEntry := { parameters := parameters, handler := handler }
  { s with tools := jsMapSet s.tools name entry,
           toolInfo := jsMapSet s.toolInfo name info }

/-- Embedding of `server.prompt(name, parameters, handler, info)`. -/
def Server.prompt (s : Server) (name : String)
    (parameters : List (String × ZSchema)) (handler : Json → Except String Json)
    (info : Info) : Server :=
  let entry : ToolEntry := { parameters := parameters, handler := handler }
  { s with prompts := jsMapSet s.prompts name entry,
           promptInfo := jsMapSet s.promptInfo name info }

/-- An incoming request object after JSON decoding.  Absent fields are
`none`; the correlation `id` is modelled as a string token (the only shape
the repository's own clients ever send). -/
structure Request where
  id : Option String := none
  type : Option String := none
  uri : Option String := none
  tool : Option String := none
  prompt : Option String := none
  parameters : Option Json := none

/-- A response envelope.  `body` carries the spread handler result or
discovery payload; registered handlers only return `contents`/`content`/
`messages` objects, so the spread can never collide with `id`/`type`. -/
structure Response where
  id : Option String := none
  type : Option String := none
  error : Option String := none
  body : Json := .null

/-- Rendering of a raw zod schema map as it appears when `handleDiscovery`
passes the declared `parameters` object through to the manifest unchanged.
The exact serialization of zod internals is irrelevant to every claim; what
matters is that the raw declared map, not a derived
`\x7bname, description, type, required\x7d` array, is emitted. -/
def zodSchemaJson (sch : ZSchema) : Json :=
  Json.obj [("kind", .str (getSchemaType { sch with optional := false })),
            ("optional", .bool sch.optional),
            ("description", .str sch.description)]

/-- Raw parameter map of a tool/prompt as emitted by `handleDiscovery`. -/
def zodMapJson (params : List (String × ZSchema)) : Json :=
  Json.obj (params.map (fun p => (p.1, zodSchemaJson p.2)))

/-- Tools array of the discovery manifest (lines 110–117): each entry is
`\x7bname, description, parameters\x7d` with the raw declared schema map. -/
def discoveryTools (s : Server) : Json :=
  Json.arr (s.tools.map (fun p =>
    let info := (jsMapGet s.toolInfo p.1).getD {}
    Json.obj [("name", .str p.1),
              ("description", .str (jsOrStr info.description ("Tool: " ++ p.1))),
              ("parameters", zodMapJson p.2.parameters)]))

/-- Resources array of the discovery manifest (lines 119–125): each entry is
`\x7bname, description, template\x7d`. -/
def discoveryResources (s : Server) : Json :=
  Json.arr (s.resources.map (fun p =>
    Json.obj [("name", .str p.1),
              ("description",
               .str (jsOrStr (some p.2.template.description)
                       ("Resource: " ++ p.1))),
              ("template", .str p.2.template.pattern)]))

/-- Prompts array of the discovery manifest (lines 127–134). -/
def discoveryPrompts (s : Server) : Json :=
  Json.arr (s.prompts.map (fun p =>
    let info := (jsMapGet s.promptInfo p.1).getD {}
    Json.obj [("name", .str p.1),
              ("description", .str (jsOrStr info.description ("Prompt: " ++ p.1))),
              ("parameters", zodMapJson p.2.parameters)]))

/-- Embedding of `handleDiscovery(id)` (lines 109–146). -/
def handleDiscovery (id : String) (s : Server) :
    Except String (Response × Server) :=
  .ok ({ id := some id,
         type := some "discover_response",
         body := Json.obj [
           ("name", .str s.name),
           ("version", .str s.version),
           ("description", .str s.description),
           ("tools", discoveryTools s),
           ("resources", discoveryResources s),
           ("prompts", discoveryPrompts s)] }, s)

/-- Invocation of a resolved resource handler inside its `try/catch`
(the shape repeated at lines 165–178, 188–201 and 220–231). -/
def respondResource (id : String) (entry : ResEntry) (uriArg : HandlerUri)
    (params : Params) : Response :=
  match entry.handler uriArg params with
  | .ok result =>
      { id := some id, type := some "resource_response", body := result }
  | .error m =>
      { id := some id, error := some ("Resource handler error: " ++ m) }

/-- First registered resource whose `template.pattern` equals `pat`
(the `for ... of server.resources.entries()` loops with an equality test). -/
def findByPattern (resources : List (String × ResEntry)) (pat : String) :
    Option ResEntry :=
  (resources.find? (fun p => p.2.template.pattern == pat)).map Prod.snd

/-- First registered resource whose template matches the parsed URI under
`matchUri`, together with the bound parameters (the generic lookup loop of
lines 216–233). -/
def findUriMatch : List (String × ResEntry) → UriObj →
    Option (ResEntry × Params)
  | [], _ => none
  | (_, e) :: rest, u =>
      match matchUri u e.template.pattern with
      | some ps => some (e, ps)
      | none => findUriMatch rest u

/-- The `if (path === 'list')` block of `handleResource` (lines 160–179):
when the path is `list` and a template with pattern `tasks://list` is
registered, the response produced by invoking its handler; `none` when the
block falls through. -/
def tasksListResp (id : String) (uri path : String) (s : Server) :
    Option Response :=
  if path == "list" then
    match findByPattern s.resources "tasks://list" with
    | some entry =>
        some (respondResource id entry { href := uri, pathname := "" } [])
    | none => none
  else none

/-- The `if (path.startsWith('task/'))` block of `handleResource`
(lines 182–202): when the path names a task and a template with pattern
`tasks://task/\x7btaskId\x7d` is registered, the response produced by
invoking its handler with `taskId = path.split('task/')[1]`; `none` when the
block falls through. -/
def tasksTaskResp (id : String) (uri path : String) (s : Server) :
    Option Response :=
  if jsStartsWith path "task/" then
    match findByPattern s.resources "tasks://task/\x7btaskId\x7d" with
    | some entry =>
        some (respondResource id entry { href := uri, pathname := "" }
          [("taskId", some (((jsSplit path "task/").get? 1).getD ""))])
    | none => none
  else none

/-- Embedding of `handleResource(id, request)` (lines 149–239).  A `.error`
result models an exception escaping the function (possible only from
`request.uri` being `undefined` or from `new URL(request.uri)` throwing,
modelled by the `parseUrl` argument); it is caught by `handleRequest`. -/
def handleResource (parseUrl : String → Except String UriObj) (id : String)
    (request : Request) (s : Server) : Except String (Response × Server) :=
  match request.uri with
  | none =>
      .error "Cannot read properties of undefined (reading 'startsWith')"
  | some uri =>
    if jsStartsWith uri "tasks://" then
      let path := ((jsSplit uri "tasks://").get? 1).getD ""
      match tasksListResp id uri path s with
      | some r => .ok (r, s)
      | none =>
        match tasksTaskResp id uri path s with
        | some r => .ok (r, s)
        | none =>
            .ok ({ id := some id,
                   error := some
                     ("No matching resource handler for tasks URI: " ++ uri) },
                 s)
    else
      match parseUrl uri with
      | .error m => .error m
      | .ok uriObj =>
          match findUriMatch s.resources uriObj with
          | some (entry, params) =>
              .ok (respondResource id entry
                     { href := uriObj.href, pathname := uriObj.pathname }
                     params, s)
          | none =>
              .ok ({ id := some id,
                     error := some
                       ("No resource handler found for URI: " ++ uri) }, s)

/-- Embedding of `handleInvoke(id, request)` (lines 242–267). -/
def handleInvoke (id : String) (request : Request) (s : Server) :
    Except String (Response × Server) :=
  let toolName := request.tool
  let lookup :=
    match toolName with
    | some t => jsMapGet s.tools t
    | none => none
  match lookup with
  | none =>
      .ok ({ id := some id,
             error := some ("Tool not found: " ++ jsShow toolName) }, s)
  | some entry =>
      match entry.handler (jsOrJson request.parameters (Json.obj [])) with
      | .ok result =>
          .ok ({ id := some id, type := some "invoke_response",
                 body := result }, s)
      | .error m =>
          .ok ({ id := some id,
                 error := some ("Tool invocation error: " ++ m) }, s)

/-- Embedding of `handlePrompt(id, request)` (lines 270–295). -/
def handlePrompt (id : String) (request : Request) (s : Server) :
    Except String (Response × Server) :=
  let promptName := request.prompt
  let lookup :=
    match promptName with
    | some p => jsMapGet s.prompts p
    | none => none
  match lookup with
  | none =>
      .ok ({ id := some id,
             error := some ("Prompt not found: " ++ jsShow promptName) }, s)
  | some entry =>
      match entry.handler (jsOrJson request.parameters (Json.obj [])) with
      | .ok result =>
          .ok ({ id := some id, type := some "prompt_response",
                 body := result }, s)
      | .error m =>
          .ok ({ id := some id,
                 error := some ("Prompt execution error: " ++ m) }, s)

/-- Embedding of `server.handleRequest(request)` (lines 75–105).  `request`
is `none` when the decoded line was a falsy value (`null`, `0`, `""`,
`false`); `now` models `Date.now()`.  The trailing `match` is the
`try/catch`: an exception escaping a branch becomes `\x7bid, error:
error.message\x7d`. -/
def handleRequest (parseUrl : String → Except String UriObj) (now : Nat)
    (request : Option Request) (s : Server) : Response × Server :=
  match request with
  | none => ({ error := some "Invalid request format" }, s)
  | some r =>
    if !jsTruthyStr r.type then
      ({ error := some "Invalid request format" }, s)
    else
      let id := if jsTruthyStr r.id then r.id.getD ""
                else "request_" ++ toString now
      let inner : Except String (Response × Server) :=
        match r.type.getD "" with
        | "discover" => handleDiscovery id s
        | "resource" => handleResource parseUrl id r s
        | "invoke" => handleInvoke id r s
        | "prompt" => handlePrompt id r s
        | t => .ok ({ id := some id,
                      error := some ("Unsupported request type: " ++ t) }, s)
      match inner with
      | .ok rs => rs
      | .error m => ({ id := some id, error := some m }, s)

/-- Embedding of the `rl.on('line', ...)` callback (lines 949–965): skip
lines that are empty after trimming; on decode failure emit exactly one
error response with the synthetic id `"error_" + Date.now()`; otherwise
dispatch and emit the dispatcher's response.  `decode` models `JSON.parse`
(its `.ok none` case is a parse that succeeded with a falsy value). -/
def processLine (decode : String → Except String (Option Request))
    (parseUrl : String → Except String UriObj) (now : Nat) (s : Server)
    (line : String) : Option Response :=
  if jsTrim line == "" then none
  else
    match decode line with
    | .ok request => some (handleRequest parseUrl now request s).1
    | .error m =>
        some { id := some ("error_" ++ toString now),
               error := some ("Failed to process request: " ++ m) }

/-- The read loop over a whole input: every line is processed independently
against the same registry (dispatch never mutates it — proved below), each
paired with the `Date.now()` value at its arrival. -/
def processLines (decode : String → Except String (Option Request))
    (parseUrl : String → Except String UriObj) (s : Server)
    (lines : List (Nat × String)) : List Response :=
  lines.filterMap (fun p => processLine decode parseUrl p.1 s p.2)

/-- Schema of the optional `status` filter
(`z.enum(["not_started", "started", "done"]).optional()`). -/
def statusOptSchema (desc : String) : ZSchema :=
  { kind := .zenum ["not_started", "started", "done"], optional := true,
    description := desc }

/-- Schema of the optional `priority` filter
(`z.enum(["low", "medium", "high"]).optional()`). -/
def priorityOptSchema (desc : String) : ZSchema :=
  { kind := .zenum ["low", "medium", "high"], optional := true,
    description := desc }

/-- Required string schema (`z.string().min(1, ...)`); the `min` refinement
does not affect the declared kind. -/
def stringSchema (desc : String) : ZSchema :=
  { kind := .zstring, description := desc }

/-- Optional string schema (`z.string().optional()`). -/
def stringOptSchema (desc : String) : ZSchema :=
  { kind := .zstring, optional := true, description := desc }

/-- Required positive-integer schema (`z.number().int().positive(...)`). -/
def numberSchema (desc : String) : ZSchema :=
  { kind := .znumber, description := desc }

/-- Required enum schema without `.optional()` (`z.enum([...])`). -/
def enumSchema (values : List String) (desc : String) : ZSchema :=
  { kind := .zenum values, description := desc }

/-- Usage examples registered with the `listTasks` tool. -/
def listTasksUsage : Json :=
  Json.arr [
    Json.obj [("description", .str "List all tasks"),
              ("params", Json.obj [])],
    Json.obj [("description", .str "List all high priority tasks"),
              ("params", Json.obj [("priority", .str "high")])],
    Json.obj [("description", .str "List all completed tasks"),
              ("params", Json.obj [("status", .str "done")])]]

/-- Usage examples registered with the `createTask` tool. -/
def createTaskUsage : Json :=
  Json.arr [
    Json.obj [("description", .str "Create a basic task"),
              ("params", Json.obj [("task", .str "Implement login page"),
                                   ("category", .str "Development")])],
    Json.obj [("description", .str "Create a high priority task"),
              ("params", Json.obj [("task", .str "Fix critical security bug"),
                                   ("category", .str "Security"),
                                   ("priority", .str "high")])]]

/-- Usage examples registered with the `updateTask` tool. -/
def updateTaskUsage : Json :=
  Json.arr [
    Json.obj [("description", .str "Mark a task as completed"),
              ("params", Json.obj [("taskId", .num 5),
                                   ("status", .str "done")])],
    Json.obj [("description", .str "Change task priority"),
              ("params", Json.obj [("taskId", .num 3),
                                   ("priority", .str "high")])],
    Json.obj [("description", .str "Rename a task"),
              ("params", Json.obj [("taskId", .num 7),
                                   ("task", .str "Implement OAuth login")])]]

/-- Usage examples registered with the `deleteTask` tool. -/
def deleteTaskUsage : Json :=
  Json.arr [
    Json.obj [("description", .str "Delete a specific task"),
              ("params", Json.obj [("taskId", .num 12)])]]

/-- The server object before any registration (lines 39–52). -/
def baseServer : Server :=
  { name := "Task Management API Server",
    version := "1.0.0",
    description := "Task Management API that provides CRUD operations for tasks with categories, priorities, and statuses",
    publisher := "TaskMaster API" }

/-- Embedding of the startup registration sequence of
`task-manager-mcp-server.js` (lines 435–939), parameterised by the handler
bodies (which call the external task store and are outside the dispatcher
contract): resources `tasks` and `task`, tools `listTasks`, `createTask`,
`updateTask`, `deleteTask`, prompts `listAllTasks`,
`createTaskNaturalLanguage`, `createNewTask`, `taskProgressReport`, in
source order. -/
def taskServer (hTasks hTask : HandlerUri → Params → Except String Json)
    (hListTasks hCreateTask hUpdateTask hDeleteTask : Json → Except String Json)
    (hListAll hCreateNL hCreateNew hProgress : Json → Except String Json) :
    Server :=
  ((((((((((baseServer.resource "tasks"
    (ResourceTemplate "tasks://list"
      "Retrieves a list of all tasks in the system with their details")
    hTasks).resource "task"
    (ResourceTemplate "tasks://task/\x7btaskId\x7d"
      "Retrieves details of a specific task by its ID")
    hTask).tool "listTasks"
    [("status", statusOptSchema "Filter tasks by status (optional)"),
     ("priority", priorityOptSchema "Filter tasks by priority level (optional)")]
    hListTasks
    { description := some "Lists all tasks in the system, optionally filtered by status and/or priority",
      usage := some listTasksUsage }).tool "createTask"
    [("task", stringSchema "The task description or title"),
     ("category", stringSchema "Task category (e.g., \x27Development\x27, \x27Documentation\x27)"),
     ("priority", priorityOptSchema "Task priority level (defaults to \x27medium\x27 if not specified)"),
     ("status", statusOptSchema "Initial task status (defaults to \x27not_started\x27 if not specified)")]
    hCreateTask
    { description := some "Creates a new task with the specified details",
      usage := some createTaskUsage }).tool "updateTask"
    [("taskId", numberSchema "The unique ID of the task to update"),
     ("task", stringOptSchema "New task description/title (if you want to change it)"),
     ("category", stringOptSchema "New task category (if you want to change it)"),
     ("priority", priorityOptSchema "New task priority (if you want to change it)"),
     ("status", statusOptSchema "New task status (if you want to change it)")]
    hUpdateTask
    { description := some "Updates an existing task with new values for one or more fields",
      usage := some updateTaskUsage }).tool "deleteTask"
    [("taskId", numberSchema "The unique ID of the task to delete")]
    hDeleteTask
    { description := some "Permanently deletes a task from the system",
      usage := some deleteTaskUsage }).prompt "listAllTasks"
    []
    hListAll
    { description := some "Lists all tasks grouped by category with priority summary",
      usage := some (.str "Use this prompt when you want to see all tasks organized by category with priority distribution") }).prompt
    "createTaskNaturalLanguage"
    [("description", stringSchema "A natural language description of the task to create")]
    hCreateNL
    { description := some "Creates a task from a natural language description by extracting key details",
      usage := some (.str "Use this when you have a detailed task description and want the AI to determine the best category and priority") }).prompt
    "createNewTask"
    [("task", stringSchema "The task description or title"),
     ("category", stringSchema "Task category"),
     ("priority", priorityOptSchema "Task priority level")]
    hCreateNew
    { description := some "Creates a new task with specific title, category and optional priority",
      usage := some (.str "Use this when you have specific task details to create") }).prompt
    "taskProgressReport"
    [("status", statusOptSchema "Filter by task status")]
    hProgress
    { description := some "Generates a progress report on tasks with key statistics and insights",
      usage := some (.str "Use this when you need an overview of task progress and areas needing attention") })

/-- Trivial resource handler, used to instantiate `taskServer` in concrete
witnesses (handler bodies are irrelevant to every dispatcher claim). -/
def nullResourceHandler : HandlerUri → Params → Except String Json :=
  fun _ _ => .ok Json.null

/-- Trivial tool/prompt handler for concrete witnesses. -/
def nullToolHandler : Json → Except String Json :=
  fun _ => .ok Json.null

/-- A fully concrete instance of the registered server, for witnesses. -/
def demoServer : Server :=
  taskServer nullResourceHandler nullResourceHandler
    nullToolHandler nullToolHandler nullToolHandler nullToolHandler
    nullToolHandler nullToolHandler nullToolHandler nullToolHandler

/-- URL parser stand-in that always fails, for witnesses that never reach
the generic branch (`new URL` is external to the dispatcher). -/
def failParseUrl : String → Except String UriObj :=
  fun _ => .error "Invalid URL"

/-- Registry entry of the standalone server's `toolHandlers`/`promptHandlers`
maps as the discovery handler consumes it: a handler object carrying the
declared `parameters` schema map. -/
structure SAToolEntry where
  parameters : List (String × ZSchema)
deriving Repr, DecidableEq

/-- Entry of the standalone server's `resourceTemplates` map as the
discovery handler consumes it: `template` (the pattern string),
`options.description`, and an optional `parameters` list. -/
structure SAResourceTemplate where
  template : String
  description : Option String := none
  parameters : Option Json := none

/-- The slice of the standalone `McpServer` state that its discovery
handler reads (`mcp-server-standalone.js` lines 592–680). -/
structure SAServer where
  name : String
  version : String
  description : String
  toolHandlers : List (String × SAToolEntry) := []
  toolInfo : List (String × Info) := []
  resourceHandlers : List (String × Unit) := []
  resourceTemplates : List (String × SAResourceTemplate) := []
  promptHandlers : List (String × SAToolEntry) := []
  promptInfo : List (String × Info) := []

/-- In the standalone discovery handler, `required: !schema.isOptional`
reads zod's `isOptional` *method* without calling it; a function value is
always truthy in JS, so the negation is constantly `false`. -/
def isOptionalMethodValue (_schema : ZSchema) : Bool :=
  true

/-- Parameter descriptor array built by the standalone discovery handler:
`Object.entries(handler.parameters || \x7b\x7d).map(([paramName, schema]) =>
(\x7bname, description, type, required\x7d))` (lines 603–608 and 628–633). -/
def saParamsArray (params : List (String × ZSchema)) : Json :=
  Json.arr (params.map (fun p =>
    Json.obj [("name", .str p.1),
              ("description", .str (jsOrStr (some p.2.description) p.1)),
              ("type", .str (getSchemaType p.2)),
              ("required", .bool (!isOptionalMethodValue p.2))]))

/-- Tools array of the standalone discovery response (lines 598–611). -/
def saDiscoveryTools (s : SAServer) : Json :=
  Json.arr (s.toolHandlers.map (fun p =>
    let info := (jsMapGet s.toolInfo p.1).getD {}
    Json.obj [("name", .str p.1),
              ("description", .str (jsOrStr info.description ("Tool: " ++ p.1))),
              ("parameters", saParamsArray p.2.parameters),
              ("usage", jsOrJson info.usage (Json.arr []))]))

/-- Resources array of the standalone discovery response (lines 613–621). -/
def saDiscoveryResources (s : SAServer) : Json :=
  Json.arr (s.resourceHandlers.map (fun p =>
    let template := jsMapGet s.resourceTemplates p.1
    Json.obj [("name", .str p.1),
              ("description",
               .str (jsOrStr (template.bind (fun t => t.description))
                       ("Resource: " ++ p.1))),
              ("uriTemplate",
               .str (jsOrStr (template.map (fun t => t.template)) "")),
              ("parameters",
               jsOrJson (template.bind (fun t => t.parameters))
                 (Json.arr []))]))

/-- Prompts array of the standalone discovery response (lines 623–636). -/
def saDiscoveryPrompts (s : SAServer) : Json :=
  Json.arr (s.promptHandlers.map (fun p =>
    let info := (jsMapGet s.promptInfo p.1).getD {}
    Json.obj [("name", .str p.1),
              ("description", .str (jsOrStr info.description ("Prompt: " ++ p.1))),
              ("parameters", saParamsArray p.2.parameters),
              ("usage", jsOrJson info.usage (.str ""))]))

/-- A tool handler that throws `boom`, for the handler-fault claims. -/
def boomToolHandler : Json → Except String Json :=
  fun _ => .error "boom"

/-- A resource handler that throws `down`, for the handler-fault claims. -/
def downResourceHandler : HandlerUri → Params → Except String Json :=
  fun _ _ => .error "down"

/-- The registered server with the `listTasks` handler throwing `boom`. -/
def boomServer : Server :=
  taskServer nullResourceHandler nullResourceHandler
    boomToolHandler nullToolHandler nullToolHandler nullToolHandler
    nullToolHandler nullToolHandler nullToolHandler nullToolHandler

/-- The registered server with the `tasks` resource handler throwing
`down`. -/
def downServer : Server :=
  taskServer downResourceHandler nullResourceHandler
    nullToolHandler nullToolHandler nullToolHandler nullToolHandler
    nullToolHandler nullToolHandler nullToolHandler nullToolHandler

/-- A concrete decoder for transport witnesses: parsing fails on the line
`oops` and decodes anything else as a discover request with id `d1`. -/
def demoDecode : String → Except String (Option Request) :=
  fun line =>
    if line == "oops" then .error "Unexpected token o in JSON at position 0"
    else .ok (some { type := some "discover", id := some "d1" })

/-- A concrete standalone-server registry state, for witnesses about the
standalone discovery response. -/
def saDemo : SAServer :=
  { name := "Task Management API Server",
    version := "1.0.0",
    description := "Task Management API that provides CRUD operations for tasks with categories, priorities, and statuses",
    toolHandlers := [("listTasks",
      { parameters :=
          [("status", statusOptSchema "Filter tasks by status (optional)"),
           ("priority",
            priorityOptSchema "Filter tasks by priority level (optional)")] })],
    toolInfo := [("listTasks",
      { description := some "Lists all tasks in the system, optionally filtered by status and/or priority",
        usage := some listTasksUsage })],
    resourceHandlers := [("tasks", ())],
    resourceTemplates := [("tasks",
      { template := "tasks://list",
        description := some "Retrieves a list of all tasks in the system with their details" })],
    promptHandlers := [("listAllTasks", { parameters := [] })],
    promptInfo := [("listAllTasks",
      { description := some "Lists all tasks grouped by category with priority summary",
        usage := some (.str "Use this prompt when you want to see all tasks organized by category with priority distribution") })] }

/-- Elements of a Json array (`[]` for non-arrays), used to state claims
about manifest entries. -/
def jsonElems : Json → List Json
  | .arr elems => elems
  | _ => []

/-- Both branches of a resource handler invocation tag the response with the
resolving request's id. -/
theorem respondResource_id (id : String) (entry : ResEntry) (u : HandlerUri)
    (ps : Params) : (respondResource id entry u ps).id = some id := by
  unfold respondResource
  cases entry.handler u ps <;> rfl

/-- A hit in the list fast path is a handler response tagged with the id. -/
theorem tasksListResp_id {id uri path : String} {s : Server} {r : Response}
    (h : tasksListResp id uri path s = some r) : r.id = some id := by
  unfold tasksListResp at h
  split at h
  · split at h
    · injection h with h
      rw [← h]
      exact respondResource_id _ _ _ _
    · cases h
  · cases h

/-- A hit in the task fast path is a handler response tagged with the id. -/
theorem tasksTaskResp_id {id uri path : String} {s : Server} {r : Response}
    (h : tasksTaskResp id uri path s = some r) : r.id = some id := by
  unfold tasksTaskResp at h
  split at h
  · split at h
    · injection h with h
      rw [← h]
      exact respondResource_id _ _ _ _
    · cases h
  · cases h

theorem handleResource_parts (parseUrl : String → Except String UriObj)
    (id : String) (req : Request) (s : Server) :
    (∃ resp, handleResource parseUrl id req s = .ok (resp, s) ∧
       resp.id = some id) ∨
    (∃ m, handleResource parseUrl id req s = .error m) := by
  unfold handleResource
  dsimp only
  split
  · right; exact ⟨_, rfl⟩
  · split
    · split
      · rename_i r heq
        exact Or.inl ⟨r, rfl, tasksListResp_id heq⟩
      · split
        · rename_i r heq
          exact Or.inl ⟨r, rfl, tasksTaskResp_id heq⟩
        · left; exact ⟨_, rfl, rfl⟩
    · split
      · right; exact ⟨_, rfl⟩
      · split
        · left; exact ⟨_, rfl, respondResource_id _ _ _ _⟩
        · left; exact ⟨_, rfl, rfl⟩

/-- Successful `handleResource` results carry the dispatch id and leave the
server state untouched. -/
theorem handleResource_ok {parseUrl : String → Except String UriObj}
    {id : String} {req : Request} {s : Server} {r : Response} {s' : Server}
    (h : handleResource parseUrl id req s = .ok (r, s')) :
    r.id = some id ∧ s' = s := by
  rcases handleResource_parts parseUrl id req s with ⟨resp, he, hid⟩ | ⟨m, he⟩
  · rw [he] at h
    injection h with h
    cases h
    exact ⟨hid, rfl⟩
  · rw [he] at h
    cases h

/-- Shape of every `handleInvoke` result: a response tagged with the
dispatch id, with the server untouched. -/
theorem handleInvoke_parts (id : String) (req : Request) (s : Server) :
    ∃ resp, handleInvoke id req s = .ok (resp, s) ∧ resp.id = some id := by
  unfold handleInvoke
  dsimp only
  split
  · exact ⟨_, rfl, rfl⟩
  · split
    · exact ⟨_, rfl, rfl⟩
    · exact ⟨_, rfl, rfl⟩

/-- Successful `handleInvoke` results carry the dispatch id and leave the
server state untouched. -/
theorem handleInvoke_ok {id : String} {req : Request} {s : Server}
    {r : Response} {s' : Server}
    (h : handleInvoke id req s = .ok (r, s')) :
    r.id = some id ∧ s' = s := by
  obtain ⟨resp, he, hid⟩ := handleInvoke_parts id req s
  rw [he] at h
  injection h with h
  cases h
  exact ⟨hid, rfl⟩

/-- Shape of every `handlePrompt` result: a response tagged with the
dispatch id, with the server untouched. -/
theorem handlePrompt_parts (id : String) (req : Request) (s : Server) :
    ∃ resp, handlePrompt id req s = .ok (resp, s) ∧ resp.id = some id := by
  unfold handlePrompt
  dsimp only
  split
  · exact ⟨_, rfl, rfl⟩
  · split
    · exact ⟨_, rfl, rfl⟩
    · exact ⟨_, rfl, rfl⟩

/-- Successful `handlePrompt` results carry the dispatch id and leave the
server state untouched. -/
theorem handlePrompt_ok {id : String} {req : Request} {s : Server}
    {r : Response} {s' : Server}
    (h : handlePrompt id req s = .ok (r, s')) :
    r.id = some id ∧ s' = s := by
  obtain ⟨resp, he, hid⟩ := handlePrompt_parts id req s
  rw [he] at h
  injection h with h
  cases h
  exact ⟨hid, rfl⟩

/-- Characterization of the segment walk: it succeeds exactly when every
remaining template part is a placeholder or literally equal to the URI part
at its index.  Note the walk is driven by the template parts alone: URI
parts beyond the template are never inspected, and a missing URI part
(`none`, JS `undefined`) is accepted by a placeholder. -/
theorem matchLoop_isSome (uriParts : List String) :
    ∀ (rest : List String) (i : Nat) (acc : Params),
      (matchLoop uriParts i rest acc).isSome = true ↔
        ∀ j, j < rest.length →
          (isPlaceholder (rest.getD j "") = true ∨
           uriParts.get? (i + j) = some (rest.getD j "")) := by
  intro rest
  induction rest with
  | nil =>
      intro i acc
      simp [matchLoop]
  | cons t rest ih =>
      intro i acc
      have hlen : (t :: rest).length = rest.length + 1 := List.length_cons t rest
      by_cases hp : isPlaceholder t = true
      · rw [matchLoop, if_pos hp, ih]
        constructor
        · intro h j hj
          cases j with
          | zero => exact Or.inl (by simpa using hp)
          | succ j =>
              have hj' : j < rest.length := by rw [hlen] at hj; omega
              have h2 := h j hj'
              rw [List.getD_cons_succ]
              have he : i + (j + 1) = (i + 1) + j := by omega
              rw [he]
              exact h2
        · intro h j hj
          have h2 := h (j + 1) (by rw [hlen]; omega)
          rw [List.getD_cons_succ] at h2
          have he : i + (j + 1) = (i + 1) + j := by omega
          rw [he] at h2
          exact h2
      · rw [matchLoop, if_neg hp]
        by_cases hu : uriParts.get? i = some t
        · rw [if_pos hu, ih]
          constructor
          · intro h j hj
            cases j with
            | zero => exact Or.inr (by simpa using hu)
            | succ j =>
                have hj' : j < rest.length := by rw [hlen] at hj; omega
                have h2 := h j hj'
                rw [List.getD_cons_succ]
                have he : i + (j + 1) = (i + 1) + j := by omega
                rw [he]
                exact h2
          · intro h j hj
            have h2 := h (j + 1) (by rw [hlen]; omega)
            rw [List.getD_cons_succ] at h2
            have he : i + (j + 1) = (i + 1) + j := by omega
            rw [he] at h2
            exact h2
        · rw [if_neg hu]
          simp only [Option.isSome_none, Bool.false_eq_true, false_iff]
          intro h
          rcases h 0 (by rw [hlen]; omega) with hc | hc
          · exact hp (by simpa using hc)
          · exact hu (by simpa using hc)

/-- Success condition of the generic matcher, in terms of the template's
split segments. -/
theorem matchUriGeneric_isSome (uri : UriObj) (pattern : String) :
    (matchUriGeneric uri pattern).isSome = true ↔
      (jsStartsWith uri.href ((jsSplit pattern "/").headD "") = true ∧
       ∀ j, j < (jsSplit pattern "/").tail.length →
         (isPlaceholder ((jsSplit pattern "/").tail.getD j "") = true ∨
          (jsSplit uri.pathname "/").get? (1 + j) =
            some ((jsSplit pattern "/").tail.getD j ""))) := by
  unfold matchUriGeneric
  dsimp only
  by_cases h : jsStartsWith uri.href ((jsSplit pattern "/").headD "") = true
  · rw [if_pos h, matchLoop_isSome]
    exact ⟨fun hl => ⟨h, hl⟩, fun hr => hr.2⟩
  · rw [if_neg h]
    simp only [Option.isSome_none, Bool.false_eq_true, false_iff]
    intro hr
    exact h hr.1

/-- Outside the `tasks://` special case, `matchUri` is the generic
segment matcher. -/
theorem matchUri_eq_generic {uri : UriObj} {pattern : String}
    (h : ¬(jsStartsWith pattern "tasks://" = true ∧ uri.protocol = "tasks:")) :
    matchUri uri pattern = matchUriGeneric uri pattern := by
  unfold matchUri
  have hc : (jsStartsWith pattern "tasks://" && uri.protocol == "tasks:")
      = false := by
    rcases Bool.eq_false_or_eq_true (jsStartsWith pattern "tasks://") with
      hb | hb
    · have hn : ¬ uri.protocol = "tasks:" := fun hc => h ⟨hb, hc⟩
      simp [hb, hn]
    · simp [hb]
  rw [hc]
  simp

/-- The `try/catch` wrapper of `handleRequest` preserves the server state
whenever every `.ok` outcome of the dispatched branch does. -/
theorem wrapState (s : Server) (idv : String)
    (inner : Except String (Response × Server))
    (h : ∀ r s', inner = .ok (r, s') → s' = s) :
    (match inner with
     | .ok rs => rs
     | .error m => ({ id := some idv, error := some m }, s)).2 = s := by
  cases inner with
  | ok rs => exact h rs.1 rs.2 rfl
  | error m => rfl

/-- The `try/catch` wrapper of `handleRequest` produces a response carrying
the dispatch id whenever every `.ok` outcome of the dispatched branch
does (the catch branch tags the id itself). -/
theorem wrapId (s : Server) (idv : String)
    (inner : Except String (Response × Server))
    (h : ∀ r s', inner = .ok (r, s') → r.id = some idv) :
    ((match inner with
      | .ok rs => rs
      | .error m => ({ id := some idv, error := some m }, s)).1).id
      = some idv := by
  cases inner with
  | ok rs => exact h rs.1 rs.2 rfl
  | error m => rfl

/-- Frame property of the whole dispatcher: the state component of
`handleRequest` is always the input state. -/
theorem handleRequest_state (parseUrl : String → Except String UriObj)
    (now : Nat) (req : Option Request) (s : Server) :
    (handleRequest parseUrl now req s).2 = s := by
  unfold handleRequest
  dsimp only
  split
  · rfl
  · split
    · rfl
    · apply wrapState
      intro r' s' h
      split at h
      · injection h with h
        cases h
        rfl
      · exact (handleResource_ok h).2
      · exact (handleInvoke_ok h).2
      · exact (handlePrompt_ok h).2
      · injection h with h
        cases h
        rfl

/-- Id correlation of the whole dispatcher for typed requests: the response
carries the request id when that is truthy, and the synthesized
`request_<now>` id otherwise. -/
theorem handleRequest_typed_id (parseUrl : String → Except String UriObj)
    (now : Nat) {r : Request} (s : Server) {t : String}
    (ht : r.type = some t) (ht' : t ≠ "") :
    ((handleRequest parseUrl now (some r) s).1).id =
      some (if jsTruthyStr r.id then r.id.getD ""
            else "request_" ++ toString now) := by
  unfold handleRequest
  dsimp only
  rw [ht]
  have h1 : jsTruthyStr (some t) = true := by
    simp [jsTruthyStr]
    exact ht'
  rw [h1]
  simp only [Bool.not_true, Bool.false_eq_true, if_false]
  apply wrapId
  intro r' s' h
  split at h
  · injection h with h
    cases h
    rfl
  · exact (handleResource_ok h).1
  · exact (handleInvoke_ok h).1
  · exact (handlePrompt_ok h).1
  · injection h with h
    cases h
    rfl

/-- C1 (counterexample): the claim fails on the code in two ways.  A request
with an id but no `type` is answered by `\x7berror: 'Invalid request
format'\x7d` carrying no id at all, so the missing-type error response does
not carry the original id; and a request with an unknown type and no id is
answered with a dispatcher-generated id `request_<timestamp>`, so the
dispatcher does substitute an id when the request's id is absent. -/
theorem response_id_echo_counterexample :
    ((handleRequest failParseUrl 5 (some { id := some "x" })
        demoServer).1).id = none ∧
    ((handleRequest failParseUrl 5 (some { type := some "bogus" })
        demoServer).1).id = some "request_5" := by
  exact ⟨rfl, rfl⟩

/-- C1 (amended): for typed requests whose id is present and non-empty, the
response's id always equals the request's id; when the id is absent (or the
empty string, which is falsy in JS), the dispatcher substitutes the
synthetic id `request_<Date.now()>`; and the error response for a missing
request type carries no id field at all.  Only the transport synthesizes
`error_<Date.now()>` ids, for lines that fail to parse. -/
theorem response_id_correlation :
    (∀ (parseUrl : String → Except String UriObj) (now : Nat) (s : Server)
       (r : Request) (i t : String),
        r.id = some i → i ≠ "" → r.type = some t → t ≠ "" →
        ((handleRequest parseUrl now (some r) s).1).id = some i) ∧
    (∀ (parseUrl : String → Except String UriObj) (now : Nat) (s : Server)
       (r : Request) (t : String),
        r.id = none → r.type = some t → t ≠ "" →
        ((handleRequest parseUrl now (some r) s).1).id =
          some ("request_" ++ toString now)) ∧
    (∀ (parseUrl : String → Except String UriObj) (now : Nat) (s : Server)
       (r : Request),
        r.type = none →
        ((handleRequest parseUrl now (some r) s).1).id = none) := by
  refine ⟨?_, ?_, ?_⟩
  · intro parseUrl now s r i t hi hi' ht ht'
    rw [handleRequest_typed_id parseUrl now s ht ht']
    rw [hi]
    have : jsTruthyStr (some i) = true := by
      simp [jsTruthyStr]
      exact hi'
    rw [this]
    rfl
  · intro parseUrl now s r t hi ht ht'
    rw [handleRequest_typed_id parseUrl now s ht ht']
    rw [hi]
    rfl
  · intro parseUrl now s r ht
    unfold handleRequest
    dsimp only
    rw [ht]
    rfl

/-- C1 (witness): concrete instances of the three amended conjuncts. -/
theorem response_id_correlation_witness :
    ((handleRequest failParseUrl 9
        (some { id := some "r7", type := some "discover" })
        demoServer).1).id = some "r7" ∧
    ((handleRequest failParseUrl 9
        (some { type := some "invoke", tool := some "listTasks" })
        demoServer).1).id = some "request_9" ∧
    ((handleRequest failParseUrl 9 (some { id := some "r7" })
        demoServer).1).id = none := by
  refine ⟨?_, ?_, ?_⟩
  · exact response_id_correlation.1 failParseUrl 9 demoServer _ "r7" "discover"
      rfl (by decide) rfl (by decide)
  · exact response_id_correlation.2.1 failParseUrl 9 demoServer _ "invoke"
      rfl rfl (by decide)
  · exact response_id_correlation.2.2 failParseUrl 9 demoServer _ rfl

/-- C9: dispatching a request never mutates the capability registry — the
state component returned by `handleRequest` (and by each of
`handleDiscovery`, `handleResource`, `handleInvoke`, `handlePrompt` on
every non-throwing path) is exactly the input state, in success and error
outcomes alike.  Registration (`Server.resource`/`tool`/`prompt`) is the
only operation of the embedding that produces a different state. -/
theorem dispatch_never_mutates_registry :
    (∀ (parseUrl : String → Except String UriObj) (now : Nat)
       (req : Option Request) (s : Server),
        (handleRequest parseUrl now req s).2 = s) ∧
    (∀ (id : String) (s : Server) (r : Response) (s' : Server),
        handleDiscovery id s = .ok (r, s') → s' = s) ∧
    (∀ (parseUrl : String → Except String UriObj) (id : String)
       (req : Request) (s : Server) (r : Response) (s' : Server),
        handleResource parseUrl id req s = .ok (r, s') → s' = s) ∧
    (∀ (id : String) (req : Request) (s : Server) (r : Response)
       (s' : Server), handleInvoke id req s = .ok (r, s') → s' = s) ∧
    (∀ (id : String) (req : Request) (s : Server) (r : Response)
       (s' : Server), handlePrompt id req s = .ok (r, s') → s' = s) := by
  refine ⟨handleRequest_state, ?_, ?_, ?_, ?_⟩
  · intro id s r s' h
    injection h with h
    cases h
    rfl
  · intro parseUrl id req s r s' h
    exact (handleResource_ok h).2
  · intro id req s r s' h
    exact (handleInvoke_ok h).2
  · intro id req s r s' h
    exact (handlePrompt_ok h).2

/-- C9 (witness): the frame property at concrete inputs, including a
successful discovery dispatch and a failing invoke lookup. -/
theorem dispatch_never_mutates_registry_witness :
    (handleRequest failParseUrl 7
      (some { type := some "discover", id := some "d1" }) demoServer).2
        = demoServer ∧ demoServer = demoServer := by
  refine ⟨dispatch_never_mutates_registry.1 failParseUrl 7 _ demoServer, ?_⟩
  exact dispatch_never_mutates_registry.2.2.2.1 "i1" { tool := some "missing" }
    demoServer { id := some "i1", error := some "Tool not found: missing" }
    demoServer rfl

/-- C5: an invoke request naming an unregistered tool deterministically
yields `\x7berror: "Tool not found: <name>"\x7d`, and a prompt request
naming an unregistered prompt yields `\x7berror: "Prompt not found:
<name>"\x7d`; the result is a fixed error envelope that contains no handler
output, so no registered handler is invoked. -/
theorem unknown_capability_rejected :
    (∀ (id : String) (req : Request) (s : Server) (n : String),
        req.tool = some n → jsMapGet s.tools n = none →
        handleInvoke id req s =
          .ok ({ id := some id,
                 error := some ("Tool not found: " ++ n) }, s)) ∧
    (∀ (id : String) (req : Request) (s : Server) (n : String),
        req.prompt = some n → jsMapGet s.prompts n = none →
        handlePrompt id req s =
          .ok ({ id := some id,
                 error := some ("Prompt not found: " ++ n) }, s)) := by
  constructor
  · intro id req s n ht hm
    unfold handleInvoke
    dsimp only
    rw [ht]
    dsimp only
    rw [hm]
    rfl
  · intro id req s n ht hm
    unfold handlePrompt
    dsimp only
    rw [ht]
    dsimp only
    rw [hm]
    rfl

/-- C5 (witness): invoking the unregistered tool `doesNotExist` and the
unregistered prompt `noSuchPrompt` on the fully registered server. -/
theorem unknown_capability_rejected_witness :
    handleInvoke "r1" { tool := some "doesNotExist" } demoServer =
      .ok ({ id := some "r1",
             error := some "Tool not found: doesNotExist" }, demoServer) ∧
    handlePrompt "r2" { prompt := some "noSuchPrompt" } demoServer =
      .ok ({ id := some "r2",
             error := some "Prompt not found: noSuchPrompt" }, demoServer) :=
  ⟨unknown_capability_rejected.1 "r1" _ demoServer "doesNotExist" rfl rfl,
   unknown_capability_rejected.2 "r2" _ demoServer "noSuchPrompt" rfl rfl⟩

/-- C7: with the registered templates `tasks://list` and
`tasks://task/\x7btaskId\x7d`, the resource request for
`tasks://task/42` resolves to the second template's handler with the
parameter binding `\x7btaskId: "42"\x7d`, for every choice of the
registered handlers — in particular the result never involves the first
template's handler `hTasks`. -/
theorem resource_task_template_resolution :
    ∀ (hTasks hTask : HandlerUri → Params → Except String Json)
      (h3 h4 h5 h6 h7 h8 h9 h10 : Json → Except String Json)
      (parseUrl : String → Except String UriObj) (id : String),
      handleResource parseUrl id { uri := some "tasks://task/42" }
          (taskServer hTasks hTask h3 h4 h5 h6 h7 h8 h9 h10) =
        .ok (respondResource id
               { template := ResourceTemplate "tasks://task/\x7btaskId\x7d"
                   "Retrieves details of a specific task by its ID",
                 handler := hTask }
               { href := "tasks://task/42", pathname := "" }
               [("taskId", some "42")],
             taskServer hTasks hTask h3 h4 h5 h6 h7 h8 h9 h10) := by
  intro hTasks hTask h3 h4 h5 h6 h7 h8 h9 h10 parseUrl id
  rfl

/-- C3 (counterexample): the equal-segment-count condition is neither
necessary nor checked.  The URI `s:/a/b` (three slash-segments) matches the
two-segment template `s:/a` because the walk stops at the template's end and
ignores the URI's extra segment; and the two-segment URI `s:/a` matches the
three-segment template `s:/a/\x7bx\x7d` because the trailing placeholder
binds the missing segment as `undefined`.  Both URI objects are written as
the WHATWG parser produces them for the corresponding href. -/
theorem matchUri_segment_count_counterexample :
    matchUri { href := "s:/a/b", pathname := "/a/b", protocol := "s:" }
        "s:/a" = some [] ∧
    (jsSplit "s:/a" "/").length ≠ (jsSplit "s:/a/b" "/").length ∧
    matchUri { href := "s:/a", pathname := "/a", protocol := "s:" }
        "s:/a/\x7bx\x7d" = some [("x", none)] ∧
    (jsSplit "s:/a/\x7bx\x7d" "/").length ≠ (jsSplit "s:/a" "/").length := by
  exact ⟨by decide, by decide, by decide, by decide⟩

/-- C3 (amended): outside the `tasks://` special case, matching succeeds
iff the URI's href starts with the template's pre-first-slash chunk and
every template segment position beyond it is either a placeholder (binding
whatever URI segment is there, including `undefined` when the URI is
shorter) or byte-equal to the URI segment at the same index; segment counts
are never compared, so a URI with extra segments can match and a shorter
URI matches when the uncovered template positions are placeholders. -/
theorem matchUri_generic_characterization (uri : UriObj) (pattern : String)
    (h : ¬(jsStartsWith pattern "tasks://" = true ∧
           uri.protocol = "tasks:")) :
    (matchUri uri pattern).isSome = true ↔
      (jsStartsWith uri.href ((jsSplit pattern "/").headD "") = true ∧
       ∀ j, j < (jsSplit pattern "/").tail.length →
         (isPlaceholder ((jsSplit pattern "/").tail.getD j "") = true ∨
          (jsSplit uri.pathname "/").get? (1 + j) =
            some ((jsSplit pattern "/").tail.getD j ""))) := by
  rw [matchUri_eq_generic h]
  exact matchUriGeneric_isSome uri pattern

/-- C3 (witness): the characterization applied at a concrete literal and
placeholder template. -/
theorem matchUri_generic_characterization_witness :
    (matchUri { href := "s:/a/b", pathname := "/a/b", protocol := "s:" }
      "s:/\x7bx\x7d").isSome = true :=
  (matchUri_generic_characterization
    { href := "s:/a/b", pathname := "/a/b", protocol := "s:" }
    "s:/\x7bx\x7d" (by decide)).mpr (by decide)

/-- C4 (counterexample): a handler fault is not surfaced verbatim — the
dispatcher prefixes it.  With the registered `listTasks` handler replaced
by one that throws `boom`, the invoke response's error field is
`Tool invocation error: boom`, not `boom`. -/
theorem handler_fault_verbatim_counterexample :
    ((handleRequest failParseUrl 3
        (some { id := some "i1", type := some "invoke",
                tool := some "listTasks" })
        boomServer).1).error =
      some "Tool invocation error: boom" ∧
    some "Tool invocation error: boom" ≠ some "boom" := by
  exact ⟨rfl, by decide⟩

/-- C4 (amended): every fault raised while invoking a capability handler is
caught inside the dispatcher and converted into an error response that
contains the exception's message verbatim as a suffix, behind a
kind-specific prefix (`Tool invocation error: `, `Prompt execution error: `,
`Resource handler error: `); faults thrown while resolving (for example by
`new URL`) are caught by the dispatcher's outer catch and surfaced with the
message verbatim; in both cases the fault becomes a response and never
propagates out of `handleRequest`, which is a total function into
responses. -/
theorem handler_fault_containment :
    (∀ (id : String) (req : Request) (s : Server) (n : String)
       (e : ToolEntry) (m : String),
        req.tool = some n → jsMapGet s.tools n = some e →
        e.handler (jsOrJson req.parameters (Json.obj [])) = .error m →
        handleInvoke id req s =
          .ok ({ id := some id,
                 error := some ("Tool invocation error: " ++ m) }, s)) ∧
    (∀ (id : String) (req : Request) (s : Server) (n : String)
       (e : ToolEntry) (m : String),
        req.prompt = some n → jsMapGet s.prompts n = some e →
        e.handler (jsOrJson req.parameters (Json.obj [])) = .error m →
        handlePrompt id req s =
          .ok ({ id := some id,
                 error := some ("Prompt execution error: " ++ m) }, s)) ∧
    (∀ (parseUrl : String → Except String UriObj) (id uri : String)
       (req : Request) (s : Server) (m : String),
        req.uri = some uri → jsStartsWith uri "tasks://" = true →
        tasksListResp id uri (((jsSplit uri "tasks://").get? 1).getD "") s
          = some { id := some id,
                   error := some ("Resource handler error: " ++ m) } →
        handleResource parseUrl id req s =
          .ok ({ id := some id,
                 error := some ("Resource handler error: " ++ m) }, s)) ∧
    (∀ (parseUrl : String → Except String UriObj) (now : Nat) (s : Server)
       (r : Request) (uri m : String),
        r.type = some "resource" → r.uri = some uri →
        jsStartsWith uri "tasks://" = false → parseUrl uri = .error m →
        (handleRequest parseUrl now (some r) s).1 =
          { id := some (if jsTruthyStr r.id then r.id.getD ""
                        else "request_" ++ toString now),
            error := some m }) := by
  refine ⟨?_, ?_, ?_, ?_⟩
  · intro id req s n e m ht hm hh
    unfold handleInvoke
    dsimp only
    rw [ht]
    dsimp only
    rw [hm]
    dsimp only
    rw [hh]
  · intro id req s n e m ht hm hh
    unfold handlePrompt
    dsimp only
    rw [ht]
    dsimp only
    rw [hm]
    dsimp only
    rw [hh]
  · intro parseUrl id uri req s m hu hs hl
    unfold handleResource
    dsimp only
    rw [hu]
    dsimp only
    rw [if_pos hs, hl]
  · intro parseUrl now s r uri m ht hu hs hp
    have hres : ∀ idv : String, handleResource parseUrl idv r s = .error m := by
      intro idv
      unfold handleResource
      dsimp only
      rw [hu]
      dsimp only
      rw [if_neg (by rw [hs]; exact Bool.false_ne_true), hp]
    unfold handleRequest
    dsimp only
    rw [ht]
    have hcond : (!jsTruthyStr (some "resource")) = false := rfl
    rw [hcond]
    simp only [Bool.false_eq_true, if_false]
    rw [hres]
    rfl

/-- C4 (witness): the three fault classes at concrete inputs — a throwing
tool handler, a throwing resource handler on the tasks fast path, and a
`new URL` failure surfaced verbatim through the outer catch. -/
theorem handler_fault_containment_witness :
    handleInvoke "w1" { tool := some "listTasks" } boomServer =
      .ok ({ id := some "w1",
             error := some "Tool invocation error: boom" }, boomServer) ∧
    handleResource failParseUrl "w3" { uri := some "tasks://list" }
        downServer =
      .ok ({ id := some "w3",
             error := some "Resource handler error: down" }, downServer) ∧
    (handleRequest failParseUrl 4
      (some { id := some "w2", type := some "resource",
              uri := some "http://x/y" }) demoServer).1 =
      { id := some "w2", error := some "Invalid URL" } := by
  refine ⟨?_, ?_, ?_⟩
  · exact handler_fault_containment.1 "w1" _ boomServer "listTasks"
      { parameters :=
          [("status", statusOptSchema "Filter tasks by status (optional)"),
           ("priority",
            priorityOptSchema "Filter tasks by priority level (optional)")],
        handler := boomToolHandler } "boom" rfl rfl rfl
  · exact handler_fault_containment.2.2.1 failParseUrl "w3" "tasks://list" _
      downServer "down" rfl (by decide) rfl
  · exact handler_fault_containment.2.2.2 failParseUrl 4 demoServer _
      "http://x/y" "Invalid URL" rfl rfl (by decide) rfl

/-- Behaviour of `processLine` on a non-empty line that fails to decode:
exactly one error response, with the synthetic timestamped id. -/
theorem processLine_decode_error
    {decode : String → Except String (Option Request)}
    (parseUrl : String → Except String UriObj) {line : String} (now : Nat)
    (s : Server) {m : String}
    (hne : jsTrim line ≠ "") (hd : decode line = .error m) :
    processLine decode parseUrl now s line =
      some { id := some ("error_" ++ toString now),
             error := some ("Failed to process request: " ++ m) } := by
  unfold processLine
  rw [if_neg (by simpa using hne), hd]

/-- Behaviour of `processLine` on a non-empty line that decodes: the
dispatcher's response is emitted. -/
theorem processLine_decode_ok
    {decode : String → Except String (Option Request)}
    (parseUrl : String → Except String UriObj) {line : String} (now : Nat)
    (s : Server) {req : Option Request}
    (hne : jsTrim line ≠ "") (hd : decode line = .ok req) :
    processLine decode parseUrl now s line =
      some (handleRequest parseUrl now req s).1 := by
  unfold processLine
  rw [if_neg (by simpa using hne), hd]

/-- The dispatcher's answer to a typed `discover` request is exactly the
discovery aggregator's response for the (possibly substituted) id. -/
theorem handleRequest_discover (parseUrl : String → Except String UriObj)
    (now : Nat) {req : Request} (s : Server)
    (ht : req.type = some "discover") :
    handleDiscovery (if jsTruthyStr req.id then req.id.getD ""
        else "request_" ++ toString now) s =
      .ok ((handleRequest parseUrl now (some req) s).1, s) := by
  unfold handleRequest
  dsimp only
  rw [ht]
  rfl

/-- C2: a non-empty line that fails to JSON-decode produces exactly one
error response whose id is `error_<Date.now()>`, the loop goes on to
process later lines, and a well-formed `discover` request on a later line
still receives the correct discovery response; lines that are empty after
trimming are skipped with no output. -/
theorem transport_malformed_line_recovery :
    ∀ (decode : String → Except String (Option Request))
      (parseUrl : String → Except String UriObj) (s : Server)
      (badLine goodLine : String) (t1 t2 : Nat) (m : String) (req : Request),
      jsTrim badLine ≠ "" → decode badLine = .error m →
      jsTrim goodLine ≠ "" → decode goodLine = .ok (some req) →
      req.type = some "discover" →
      (processLines decode parseUrl s [(t1, badLine), (t2, goodLine)] =
        [{ id := some ("error_" ++ toString t1),
           error := some ("Failed to process request: " ++ m) },
         (handleRequest parseUrl t2 (some req) s).1] ∧
       handleDiscovery (if jsTruthyStr req.id then req.id.getD ""
           else "request_" ++ toString t2) s =
         .ok ((handleRequest parseUrl t2 (some req) s).1, s) ∧
       (∀ (blank : String) (ts : Nat), jsTrim blank = "" →
          processLine decode parseUrl ts s blank = none)) := by
  intro decode parseUrl s badLine goodLine t1 t2 m req
    hb hbd hg hgd ht
  refine ⟨?_, handleRequest_discover parseUrl t2 s ht, ?_⟩
  · unfold processLines
    rw [List.filterMap_cons, List.filterMap_cons, List.filterMap_nil]
    rw [processLine_decode_error parseUrl t1 s hb hbd]
    rw [processLine_decode_ok parseUrl t2 s hg hgd]
  · intro blank ts hblank
    unfold processLine
    rw [if_pos (by rw [hblank]; rfl)]

/-- C2 (witness): a malformed line followed by a discover line against the
fully registered server: the first response carries the synthetic
`error_1` id, the second is the discovery response correlated as `d1`. -/
theorem transport_malformed_line_recovery_witness :
    (processLines demoDecode failParseUrl demoServer
        [(1, "oops"), (2, "disc")]).map Response.id =
      [some "error_1", some "d1"] := by
  have h := transport_malformed_line_recovery demoDecode failParseUrl
    demoServer "oops" "disc" 1 2 "Unexpected token o in JSON at position 0"
    { type := some "discover", id := some "d1" }
    (by decide) rfl (by decide) rfl rfl
  rw [h.1]
  rfl

/-- Names extracted from an array of entry objects whose first field is the
entry's name: exactly the underlying keys, in order. -/
theorem jsonNames_entries {α : Type} (l : List (String × α))
    (f : String × α → Json)
    (hf : ∀ p, jsonGet (f p) "name" = some (.str p.1)) :
    jsonNames (Json.arr (l.map f)) = l.map Prod.fst := by
  induction l with
  | nil => rfl
  | cons p rest ih =>
      have hg : (match jsonGet (f p) "name" with
        | some (.str s) => some s
        | _ => none) = some p.1 := by rw [hf p]
      simp only [List.map_cons, jsonNames, List.filterMap_cons, hg]
      simp only [jsonNames] at ih
      rw [ih]

/-- The tools manifest array lists exactly the registered tool names in
registration order. -/
theorem discoveryTools_names (s : Server) :
    jsonNames (discoveryTools s) = s.tools.map Prod.fst :=
  jsonNames_entries s.tools _ (fun _ => rfl)

/-- The resources manifest array lists exactly the registered resource
names in registration order. -/
theorem discoveryResources_names (s : Server) :
    jsonNames (discoveryResources s) = s.resources.map Prod.fst :=
  jsonNames_entries s.resources _ (fun _ => rfl)

/-- The prompts manifest array lists exactly the registered prompt names in
registration order. -/
theorem discoveryPrompts_names (s : Server) :
    jsonNames (discoveryPrompts s) = s.prompts.map Prod.fst :=
  jsonNames_entries s.prompts _ (fun _ => rfl)

/-- C6: discovery is idempotent (a second call on the state left by the
first yields a structurally identical response) and complete (each
manifest array lists exactly the registered names of its kind, in
registration order — the key order of the insertion-ordered registry maps
— and hence each registered name exactly once whenever the registry keys
are distinct, which registration guarantees). -/
theorem discovery_idempotent_complete :
    (∀ (id : String) (s : Server) (r1 : Response) (s1 : Server)
       (r2 : Response) (s2 : Server),
        handleDiscovery id s = .ok (r1, s1) →
        handleDiscovery id s1 = .ok (r2, s2) → r1 = r2) ∧
    (∀ s : Server,
        jsonNames (discoveryTools s) = s.tools.map Prod.fst ∧
        jsonNames (discoveryResources s) = s.resources.map Prod.fst ∧
        jsonNames (discoveryPrompts s) = s.prompts.map Prod.fst) ∧
    (∀ (id : String) (s : Server) (r : Response) (s' : Server),
        handleDiscovery id s = .ok (r, s') →
        jsonGet r.body "tools" = some (discoveryTools s) ∧
        jsonGet r.body "resources" = some (discoveryResources s) ∧
        jsonGet r.body "prompts" = some (discoveryPrompts s)) ∧
    (∀ s : Server, (s.tools.map Prod.fst).Nodup →
        (jsonNames (discoveryTools s)).Nodup) ∧
    (∀ s : Server, (s.resources.map Prod.fst).Nodup →
        (jsonNames (discoveryResources s)).Nodup) ∧
    (∀ s : Server, (s.prompts.map Prod.fst).Nodup →
        (jsonNames (discoveryPrompts s)).Nodup) := by
  refine ⟨?_, ?_, ?_, ?_, ?_, ?_⟩
  · intro id s r1 s1 r2 s2 h1 h2
    injection h1 with h1
    cases h1
    injection h2 with h2
    cases h2
    rfl
  · intro s
    exact ⟨discoveryTools_names s, discoveryResources_names s,
           discoveryPrompts_names s⟩
  · intro id s r s' h
    injection h with h
    cases h
    exact ⟨rfl, rfl, rfl⟩
  · intro s h
    rw [discoveryTools_names s]
    exact h
  · intro s h
    rw [discoveryResources_names s]
    exact h
  · intro s h
    rw [discoveryPrompts_names s]
    exact h

/-- C6 (witness): on the fully registered server the tools manifest lists
the four tools once each, in registration order — which is not the
alphabetical order. -/
theorem discovery_idempotent_complete_witness :
    jsonNames (discoveryTools demoServer) =
      ["listTasks", "createTask", "updateTask", "deleteTask"] ∧
    (jsonNames (discoveryTools demoServer)).Nodup ∧
    jsonNames (discoveryTools demoServer) ≠
      ["createTask", "deleteTask", "listTasks", "updateTask"] := by
  refine ⟨?_, ?_, ?_⟩
  · rw [(discovery_idempotent_complete.2.1 demoServer).1]
    rfl
  · exact discovery_idempotent_complete.2.2.2.1 demoServer (by decide)
  · rw [(discovery_idempotent_complete.2.1 demoServer).1]
    decide

/-- C8 (counterexample): in `handleDiscovery` of
`task-manager-mcp-server.js` the claimed entry shape does not hold — the
first tool entry of the fully registered server has keys
`[name, description, parameters]` with no `usage` key (and `parameters` is
the raw declared schema map, not a derived array), and the first resource
entry uses the key `template`, not `uriTemplate`, with no `parameters`. -/
theorem discovery_manifest_shape_counterexample :
    jsonKeys ((jsonElems (discoveryTools demoServer)).getD 0 .null) =
      ["name", "description", "parameters"] ∧
    "usage" ∉ jsonKeys ((jsonElems (discoveryTools demoServer)).getD 0 .null) ∧
    jsonKeys ((jsonElems (discoveryResources demoServer)).getD 0 .null) =
      ["name", "description", "template"] ∧
    "uriTemplate" ∉
      jsonKeys ((jsonElems (discoveryResources demoServer)).getD 0 .null) := by
  exact ⟨rfl, by decide, rfl, by decide⟩

/-- C8 (amended): the claimed shapes hold for the standalone transport's
discovery handler (`mcp-server-standalone.js`): every tool and prompt entry
is `\x7bname, description, parameters, usage\x7d` whose `parameters` is an
array of `\x7bname, description, type, required\x7d` records derived from
the declared schema map with `type` computed by `getSchemaType` on the
declared schema object, and every resource entry is `\x7bname, description,
uriTemplate, parameters\x7d`.  The hand-rolled `handleDiscovery` of
`task-manager-mcp-server.js` instead emits `\x7bname, description,
parameters\x7d` (raw schema map, no usage) for tools and prompts, and
`\x7bname, description, template\x7d` for resources. -/
theorem discovery_manifest_entry_shape :
    (∀ (s : SAServer) (j : Json), j ∈ jsonElems (saDiscoveryTools s) →
        jsonKeys j = ["name", "description", "parameters", "usage"]) ∧
    (∀ (s : SAServer) (j : Json), j ∈ jsonElems (saDiscoveryPrompts s) →
        jsonKeys j = ["name", "description", "parameters", "usage"]) ∧
    (∀ (params : List (String × ZSchema)) (j : Json),
        j ∈ jsonElems (saParamsArray params) →
        jsonKeys j = ["name", "description", "type", "required"]) ∧
    (∀ (params : List (String × ZSchema)) (n : String) (sch : ZSchema),
        (n, sch) ∈ params →
        Json.obj [("name", .str n),
                  ("description", .str (jsOrStr (some sch.description) n)),
                  ("type", .str (getSchemaType sch)),
                  ("required", .bool (!isOptionalMethodValue sch))]
          ∈ jsonElems (saParamsArray params)) ∧
    (∀ (s : SAServer) (j : Json), j ∈ jsonElems (saDiscoveryResources s) →
        jsonKeys j = ["name", "description", "uriTemplate", "parameters"]) ∧
    (∀ (s : Server) (j : Json), j ∈ jsonElems (discoveryTools s) →
        jsonKeys j = ["name", "description", "parameters"]) ∧
    (∀ (s : Server) (j : Json), j ∈ jsonElems (discoveryResources s) →
        jsonKeys j = ["name", "description", "template"]) ∧
    (∀ (s : Server) (j : Json), j ∈ jsonElems (discoveryPrompts s) →
        jsonKeys j = ["name", "description", "parameters"]) := by
  refine ⟨?_, ?_, ?_, ?_, ?_, ?_, ?_, ?_⟩
  · intro s j hj
    simp only [saDiscoveryTools, jsonElems] at hj
    obtain ⟨p, _, rfl⟩ := List.mem_map.mp hj
    rfl
  · intro s j hj
    simp only [saDiscoveryPrompts, jsonElems] at hj
    obtain ⟨p, _, rfl⟩ := List.mem_map.mp hj
    rfl
  · intro params j hj
    simp only [saParamsArray, jsonElems] at hj
    obtain ⟨p, _, rfl⟩ := List.mem_map.mp hj
    rfl
  · intro params n sch hmem
    simp only [saParamsArray, jsonElems]
    exact List.mem_map_of_mem _ hmem
  · intro s j hj
    simp only [saDiscoveryResources, jsonElems] at hj
    obtain ⟨p, _, rfl⟩ := List.mem_map.mp hj
    rfl
  · intro s j hj
    simp only [discoveryTools, jsonElems] at hj
    obtain ⟨p, _, rfl⟩ := List.mem_map.mp hj
    rfl
  · intro s j hj
    simp only [discoveryResources, jsonElems] at hj
    obtain ⟨p, _, rfl⟩ := List.mem_map.mp hj
    rfl
  · intro s j hj
    simp only [discoveryPrompts, jsonElems] at hj
    obtain ⟨p, _, rfl⟩ := List.mem_map.mp hj
    rfl

/-- C8 (witness): the shape facts at a concrete standalone registry
state. -/
theorem discovery_manifest_entry_shape_witness :
    (∃ j ∈ jsonElems (saDiscoveryTools saDemo),
       jsonKeys j = ["name", "description", "parameters", "usage"]) ∧
    (∃ j ∈ jsonElems (saDiscoveryResources saDemo),
       jsonKeys j = ["name", "description", "uriTemplate", "parameters"]) := by
  constructor
  · have hmem : (jsonElems (saDiscoveryTools saDemo)).getD 0 .null
        ∈ jsonElems (saDiscoveryTools saDemo) := by
      rw [show jsonElems (saDiscoveryTools saDemo)
        = [(jsonElems (saDiscoveryTools saDemo)).getD 0 .null] from rfl]
      exact List.mem_singleton_self _
    exact ⟨_, hmem, discovery_manifest_entry_shape.1 saDemo _ hmem⟩
  · have hmem : (jsonElems (saDiscoveryResources saDemo)).getD 0 .null
        ∈ jsonElems (saDiscoveryResources saDemo) := by
      rw [show jsonElems (saDiscoveryResources saDemo)
        = [(jsonElems (saDiscoveryResources saDemo)).getD 0 .null] from rfl]
      exact List.mem_singleton_self _
    exact ⟨_, hmem, discovery_manifest_entry_shape.2.2.2.2.1 saDemo _ hmem⟩

/-- The list fast path misses when no `tasks://list` template is registered
(or the path is not `list`). -/
theorem tasksListResp_none {id uri path : String} {s : Server}
    (h : path = "list" → findByPattern s.resources "tasks://list" = none) :
    tasksListResp id uri path s = none := by
  unfold tasksListResp
  by_cases hp : (path == "list") = true
  · rw [if_pos hp, h (by simpa using hp)]
  · rw [if_neg hp]

/-- The task fast path misses when no `tasks://task/\x7btaskId\x7d`
template is registered (or the path does not start with `task/`). -/
theorem tasksTaskResp_none {id uri path : String} {s : Server}
    (h : jsStartsWith path "task/" = true →
         findByPattern s.resources "tasks://task/\x7btaskId\x7d" = none) :
    tasksTaskResp id uri path s = none := by
  unfold tasksTaskResp
  by_cases hp : jsStartsWith path "task/" = true
  · rw [if_pos hp, h hp]
  · rw [if_neg hp]

/-- C10: for a resource request whose uri starts with `tasks://`, the
dispatcher (1) never consults the URL parser or the generic matcher — the
result is independent of the parser; (2) invokes the first registered
entry whose pattern string is exactly `tasks://list` when the remainder is
exactly `list`; (3) invokes the first registered entry whose pattern
string is exactly `tasks://task/\x7btaskId\x7d` when the remainder starts
with `task/`, binding `taskId` to the text after `task/`; and (4) answers
`No matching resource handler for tasks URI: <uri>` in every other case. -/
theorem tasks_uri_fast_path :
    (∀ (parseUrl parseUrl' : String → Except String UriObj) (id : String)
       (req : Request) (s : Server) (uri : String),
        req.uri = some uri → jsStartsWith uri "tasks://" = true →
        handleResource parseUrl id req s =
          handleResource parseUrl' id req s) ∧
    (∀ (parseUrl : String → Except String UriObj) (id : String)
       (req : Request) (s : Server) (uri : String) (entry : ResEntry),
        req.uri = some uri → jsStartsWith uri "tasks://" = true →
        ((jsSplit uri "tasks://").get? 1).getD "" = "list" →
        findByPattern s.resources "tasks://list" = some entry →
        handleResource parseUrl id req s =
          .ok (respondResource id entry { href := uri, pathname := "" } [],
            s)) ∧
    (∀ (parseUrl : String → Except String UriObj) (id : String)
       (req : Request) (s : Server) (uri : String) (entry : ResEntry),
        req.uri = some uri → jsStartsWith uri "tasks://" = true →
        jsStartsWith (((jsSplit uri "tasks://").get? 1).getD "") "task/"
          = true →
        findByPattern s.resources "tasks://task/\x7btaskId\x7d"
          = some entry →
        handleResource parseUrl id req s =
          .ok (respondResource id entry { href := uri, pathname := "" }
            [("taskId",
              some (((jsSplit (((jsSplit uri "tasks://").get? 1).getD "")
                "task/").get? 1).getD ""))], s)) ∧
    (∀ (parseUrl : String → Except String UriObj) (id : String)
       (req : Request) (s : Server) (uri : String),
        req.uri = some uri → jsStartsWith uri "tasks://" = true →
        (((jsSplit uri "tasks://").get? 1).getD "" = "list" →
          findByPattern s.resources "tasks://list" = none) →
        (jsStartsWith (((jsSplit uri "tasks://").get? 1).getD "") "task/"
            = true →
          findByPattern s.resources "tasks://task/\x7btaskId\x7d" = none) →
        handleResource parseUrl id req s =
          .ok ({ id := some id,
                 error := some
                   ("No matching resource handler for tasks URI: " ++ uri) },
               s)) := by
  refine ⟨?_, ?_, ?_, ?_⟩
  · intro parseUrl parseUrl' id req s uri hu hs
    unfold handleResource
    dsimp only
    rw [hu]
    dsimp only
    rw [if_pos hs, if_pos hs]
  · intro parseUrl id req s uri entry hu hs hpath hfind
    unfold handleResource
    dsimp only
    rw [hu]
    dsimp only
    rw [if_pos hs]
    have hl : tasksListResp id uri (((jsSplit uri "tasks://").get? 1).getD "")
        s = some (respondResource id entry { href := uri, pathname := "" } [])
        := by
      unfold tasksListResp
      rw [if_pos (by rw [hpath]; rfl), hfind]
    rw [hl]
  · intro parseUrl id req s uri entry hu hs hst hfind
    unfold handleResource
    dsimp only
    rw [hu]
    dsimp only
    rw [if_pos hs]
    have htl : tasksListResp id uri
        (((jsSplit uri "tasks://").get? 1).getD "") s = none :=
      tasksListResp_none (fun hlist => absurd (hlist ▸ hst) (by decide))
    have htt : tasksTaskResp id uri
        (((jsSplit uri "tasks://").get? 1).getD "") s
        = some (respondResource id entry { href := uri, pathname := "" }
            [("taskId",
              some (((jsSplit (((jsSplit uri "tasks://").get? 1).getD "")
                "task/").get? 1).getD ""))]) := by
      unfold tasksTaskResp
      rw [if_pos hst, hfind]
    rw [htl]
    dsimp only
    rw [htt]
  · intro parseUrl id req s uri hu hs h1 h2
    unfold handleResource
    dsimp only
    rw [hu]
    dsimp only
    rw [if_pos hs]
    rw [tasksListResp_none h1]
    dsimp only
    rw [tasksTaskResp_none h2]

/-- C10 (witness): a tasks URI matching neither fast path yields the fixed
error, and `tasks://list` resolves through the exact-pattern lookup. -/
theorem tasks_uri_fast_path_witness :
    handleResource failParseUrl "w1" { uri := some "tasks://nope" }
        demoServer =
      .ok ({ id := some "w1",
             error := some
               "No matching resource handler for tasks URI: tasks://nope" },
           demoServer) ∧
    handleResource failParseUrl "w2" { uri := some "tasks://list" }
        demoServer =
      .ok (respondResource "w2"
             { template := ResourceTemplate "tasks://list"
                 "Retrieves a list of all tasks in the system with their details",
               handler := nullResourceHandler }
             { href := "tasks://list", pathname := "" } [], demoServer) := by
  constructor
  · exact tasks_uri_fast_path.2.2.2 failParseUrl "w1" _ demoServer
      "tasks://nope" rfl (by decide)
      (fun h => absurd h (by decide)) (fun h => absurd h (by decide))
  · exact tasks_uri_fast_path.2.1 failParseUrl "w2" _ demoServer
      "tasks://list"
      { template := ResourceTemplate "tasks://list"
          "Retrieves a list of all tasks in the system with their details",
        handler := nullResourceHandler }
      rfl (by decide) (by decide) rfl
